import Mathlib

/-!
Verification of the moonlander-signals core engine
(`backend/indicators.py`, `backend/scoring.py`, `backend/config.py`).

Python floats are embedded as exact rationals (ℚ); `round(x, n)` is embedded
as round-half-even on ℚ (`pyRound`), matching Python's rounding mode.
`math.sqrt`, which has no rational counterpart, is abstracted as an explicit
function parameter; no claim depends on its value.
-/

namespace Moonlander

/-- Round-half-even to the nearest integer, the rounding mode of Python's
built-in `round`. -/
def rhe (q : ℚ) : ℤ :=
  let f := ⌊q⌋
  if q - f < 1/2 then f
  else if 1/2 < q - f then f + 1
  else if f % 2 = 0 then f else f + 1

/-- Embedding of Python's `round(q, n)` on exact rationals. -/
def pyRound (q : ℚ) (n : ℕ) : ℚ := (rhe (q * 10 ^ n) : ℚ) / 10 ^ n

/-! ## Indicator library (`backend/indicators.py`) -/

/-- The list of successive price deltas, `changes[i] = prices[i+1] - prices[i]`
(`indicators.py` line 22). -/
def priceChanges (prices : List ℚ) : List ℚ :=
  ((prices.drop 1).zip prices).map fun p => p.1 - p.2

/-- The most recent `period` deltas, `changes[-period:]`
(`indicators.py` line 25). -/
def rsiRecentChanges (prices : List ℚ) (period : ℕ) : List ℚ :=
  let changes := priceChanges prices
  changes.drop (changes.length - period)

/-- Embedding of `calculate_rsi` (`indicators.py` lines 13-39): simple average
gain and average loss over the most recent `period` deltas; `100` when the
average loss is zero; `none` when fewer than `period + 1` prices. -/
def calculateRsi (prices : List ℚ) (period : ℕ) : Option ℚ :=
  if prices.length < period + 1 then none
  else
    let recent := rsiRecentChanges prices period
    let gains := recent.map fun c => if 0 < c then c else 0
    let losses := recent.map fun c => if c < 0 then -c else 0
    let avgGain := gains.sum / period
    let avgLoss := losses.sum / period
    if avgLoss = 0 then some 100
    else
      let rs := avgGain / avgLoss
      some (pyRound (100 - 100 / (1 + rs)) 2)

/-- Modelled from the spec: the Wilder-smoothed RSI the spec describes
("Wilder-style running smoothing across the whole history, seeded by a simple
average of the first `period` deltas").  Kept only for comparison with
`calculateRsi`; the source computes a plain average of the last `period`
deltas instead. -/
def specWilderRsi (prices : List ℚ) (period : ℕ) : Option ℚ :=
  if prices.length < period + 1 then none
  else
    let changes := priceChanges prices
    let gain := fun (c : ℚ) => if 0 < c then c else 0
    let loss := fun (c : ℚ) => if c < 0 then -c else 0
    let seedG := ((changes.take period).map gain).sum / period
    let seedL := ((changes.take period).map loss).sum / period
    let run := (changes.drop period).foldl
      (fun (p : ℚ × ℚ) c =>
        ((p.1 * (period - 1) + gain c) / period, (p.2 * (period - 1) + loss c) / period))
      (seedG, seedL)
    if run.2 = 0 then some 100
    else some (100 - 100 / (1 + run.1 / run.2))

/-- Embedding of `calculate_ema` (`indicators.py` lines 42-53): seeded with the
SMA of the first `period` prices, then the standard EMA recurrence. -/
def calculateEma (prices : List ℚ) (period : ℕ) : Option ℚ :=
  if prices.length < period then none
  else
    let multiplier : ℚ := 2 / ((period : ℚ) + 1)
    some ((prices.drop period).foldl
      (fun ema p => (p - ema) * multiplier + ema)
      ((prices.take period).sum / period))

/-- Result record of `calculate_macd`. -/
structure MacdOut where
  macdLine : ℚ
  signalLine : Option ℚ
  histogram : ℚ
  bullish : Bool
  rising : Bool
  deriving DecidableEq, Repr

/-- Embedding of `calculate_macd` (`indicators.py` lines 56-93).  Python's
`if e12 and e26` truthiness test skips a pair when either EMA is `None` or
exactly zero, and `histogram = ... if signal_line else 0` treats a zero
signal line like a missing one; both are modelled literally. -/
def calculateMacd (prices : List ℚ) : Option MacdOut :=
  if prices.length < 35 then none
  else
    match calculateEma prices 12, calculateEma prices 26 with
    | some e12, some e26 =>
      let macdLine := e12 - e26
      let macdValues := (List.range (prices.length - 26)).filterMap fun j =>
        match calculateEma (prices.take (27 + j)) 12, calculateEma (prices.take (27 + j)) 26 with
        | some a, some b => if a ≠ 0 ∧ b ≠ 0 then some (a - b) else none
        | _, _ => none
      if macdValues.length < 9 then none
      else
        let signalLine := calculateEma macdValues 9
        let histogram :=
          match signalLine with
          | some s => if s ≠ 0 then macdLine - s else 0
          | none => 0
        let rising :=
          match macdValues.reverse with
          | a :: b :: _ => decide (b < a)
          | _ => false
        some { macdLine := macdLine, signalLine := signalLine, histogram := histogram,
               bullish := decide (0 < histogram), rising := rising }
    | _, _ => none

/-- Result record of `calculate_bollinger_bands`. -/
structure BollOut where
  upper : ℚ
  middle : ℚ
  lower : ℚ
  percentB : ℚ
  bandwidth : ℚ
  deriving DecidableEq, Repr

/-- Embedding of `calculate_bollinger_bands` (`indicators.py` lines 96-124).
`math.sqrt` is abstracted as the parameter `sqrtq` since no claim depends on
its value; `percent_b` falls back to `0.5` when the bands collapse. -/
def calculateBollingerBands (sqrtq : ℚ → ℚ) (prices : List ℚ) (period : ℕ)
    (stdDev : ℚ) : Option BollOut :=
  if prices.length < period then none
  else
    let recent := prices.drop (prices.length - period)
    let sma := recent.sum / period
    let variance := (recent.map fun p => (p - sma) ^ (2 : ℕ)).sum / (period : ℚ)
    let std := sqrtq variance
    let upper := sma + stdDev * std
    let lower := sma - stdDev * std
    let currentPrice := prices.getLastD 0
    let percentB := if upper ≠ lower then (currentPrice - lower) / (upper - lower) else (5/10 : ℚ)
    some { upper := upper, middle := sma, lower := lower, percentB := percentB,
           bandwidth := if 0 < sma then (upper - lower) / sma else 0 }

/-- Signal direction tag used throughout the engine. -/
inductive Sig where
  | bullish
  | bearish
  | neutral
  deriving DecidableEq, Repr

/-- Result record of `calculate_adx`. -/
structure AdxOut where
  adx : ℚ
  plusDi : ℚ
  minusDi : ℚ
  trending : Bool
  strongTrend : Bool
  direction : Sig
  deriving DecidableEq, Repr

/-- Embedding of the inner `wilders_smooth` helper of `calculate_adx`
(`indicators.py` lines 168-172): first value is the sum of the first `period`
raw values, then `prev - prev/period + new` for each remaining value. -/
def wildersSmooth (values : List ℚ) (period : ℕ) : List ℚ :=
  (values.drop period).scanl
    (fun prev v => prev - prev / (period : ℚ) + v)
    (values.take period).sum

/-- The list of true ranges over consecutive bars (`indicators.py`
lines 146-152): entry `i - 1` is
`max(high[i]-low[i], |high[i]-close[i-1]|, |low[i]-close[i-1]|)`. -/
def trueRanges (highs lows closes : List ℚ) : List ℚ :=
  ((highs.drop 1).zip ((lows.drop 1).zip closes)).map fun x =>
    max (x.1 - x.2.1) (max |x.1 - x.2.2| |x.2.1 - x.2.2|)

/-- Consecutive (current, previous) pairs of highs zipped with those of lows,
used for the directional-movement lists. -/
def dmPairs (highs lows : List ℚ) : List (ℚ × ℚ) × List (ℚ × ℚ) :=
  ((highs.drop 1).zip highs, (lows.drop 1).zip lows)

/-- `+DM` list (`indicators.py` line 158): the up-move when it is positive and
exceeds the down-move, else `0`. -/
def plusDmList (highs lows : List ℚ) : List ℚ :=
  (((highs.drop 1).zip highs).zip ((lows.drop 1).zip lows)).map fun x =>
    let up := x.1.1 - x.1.2
    let down := x.2.2 - x.2.1
    if down < up ∧ 0 < up then up else 0

/-- `-DM` list (`indicators.py` line 159). -/
def minusDmList (highs lows : List ℚ) : List ℚ :=
  (((highs.drop 1).zip highs).zip ((lows.drop 1).zip lows)).map fun x =>
    let up := x.1.1 - x.1.2
    let down := x.2.2 - x.2.1
    if up < down ∧ 0 < down then down else 0

/-- Embedding of `calculate_adx` (`indicators.py` lines 127-213).  Each early
`return None` of the source is a `none` branch here; the DX list drops entries
with zero smoothed TR or non-positive DI sum exactly as the source's loop
does. -/
def calculateAdx (highs lows closes : List ℚ) (period : ℕ) : Option AdxOut :=
  if highs.length < period + 1 ∨ lows.length < period + 1 ∨ closes.length < period + 1 then
    none
  else
    let trList := trueRanges highs lows closes
    if trList.length < period then none
    else
      let sTr := wildersSmooth trList period
      let sPlus := wildersSmooth (plusDmList highs lows) period
      let sMinus := wildersSmooth (minusDmList highs lows) period
      if sTr = [] ∨ sTr.getLastD 0 = 0 then none
      else
        let plusDi := sPlus.getLastD 0 / sTr.getLastD 0 * 100
        let minusDi := sMinus.getLastD 0 / sTr.getLastD 0 * 100
        if plusDi + minusDi = 0 then none
        else
          let dxList := (sTr.zip (sPlus.zip sMinus)).filterMap fun x =>
            if x.1 = 0 then none
            else
              let pdi : ℚ := x.2.1 / x.1 * 100
              let mdi : ℚ := x.2.2 / x.1 * 100
              if 0 < pdi + mdi then some ((|pdi - mdi| / (pdi + mdi) * 100 : ℚ)) else none
          if dxList.length < period then none
          else
            let adx := (dxList.drop (dxList.length - period)).sum / period
            some { adx := pyRound adx 2, plusDi := pyRound plusDi 2,
                   minusDi := pyRound minusDi 2,
                   trending := decide (25 < adx), strongTrend := decide (50 < adx),
                   direction := if minusDi < plusDi then Sig.bullish else Sig.bearish }

/-- The two DeMark setup kinds. -/
inductive SetupKind where
  | sell
  | buy
  deriving DecidableEq, Repr

/-- Result record of `calculate_demark`. -/
structure DemarkResult where
  count : ℕ
  direction : Option SetupKind
  signal : Option Sig
  active : Bool
  completed : Bool
  deriving DecidableEq, Repr

/-- One transition of the DeMark forward scan (`indicators.py` lines 273-291).
The state is `(sell_count, buy_count)`; the bar is `(close[i], close[i-4])`.
A lower close resets any buy count and increments the sell count capped at 9;
a higher close is symmetric; an equal close resets both counts. -/
def demarkStep (st : ℕ × ℕ) (bar : ℚ × ℚ) : ℕ × ℕ :=
  if bar.1 < bar.2 then
    (if 9 ≤ st.1 + 1 then 9 else st.1 + 1, 0)
  else if bar.2 < bar.1 then
    (0, if 9 ≤ st.2 + 1 then 9 else st.2 + 1)
  else
    (0, 0)

/-- Embedding of `calculate_demark` (`indicators.py` lines 216-316).  The
source's first, backward loop (lines 243-267) computes counts that are
immediately discarded and recomputed by the forward scan (lines 270-291), so
only the forward scan is modelled.  Every path of the source returns a
dictionary (despite the `Optional` annotation), hence every branch here is
`some`. -/
def calculateDemark (closes : List ℚ) : Option DemarkResult :=
  if closes.length < 5 then
    some { count := 0, direction := none, signal := none, active := false, completed := false }
  else
    let st := ((closes.drop 4).zip closes).foldl demarkStep (0, 0)
    if 0 < st.1 then
      some { count := st.1, direction := some SetupKind.sell, signal := some Sig.bullish,
             active := true, completed := decide (9 ≤ st.1) }
    else if 0 < st.2 then
      some { count := st.2, direction := some SetupKind.buy, signal := some Sig.bearish,
             active := true, completed := decide (9 ≤ st.2) }
    else
      some { count := 0, direction := none, signal := none, active := false, completed := false }

/-- Result record of `calculate_trend`.  The two early returns of the source
produce dictionaries without the EMA fields; those fields are `none` here. -/
structure TrendOut where
  trend : Sig
  strength : ℚ
  ema9 : Option ℚ
  ema21 : Option ℚ
  ema50 : Option ℚ
  deriving DecidableEq, Repr

/-- Embedding of `calculate_trend` (`indicators.py` lines 355-398).  Python's
`not all([ema_9, ema_21, ema_50])` truthiness test also fires when an EMA is
exactly zero. -/
def calculateTrend (prices : List ℚ) : TrendOut :=
  if prices.length < 50 then
    { trend := Sig.neutral, strength := 0, ema9 := none, ema21 := none, ema50 := none }
  else
    match calculateEma prices 9, calculateEma prices 21, calculateEma prices 50 with
    | some e9, some e21, some e50 =>
      if e9 = 0 ∨ e21 = 0 ∨ e50 = 0 then
        { trend := Sig.neutral, strength := 0, ema9 := none, ema21 := none, ema50 := none }
      else
        let current := prices.getLastD 0
        let bullishCount : ℕ :=
          (if e21 < e9 then 1 else 0) + (if e50 < e21 then 1 else 0) +
          (if e50 < current then 1 else 0) + (if e9 < current then 1 else 0)
        if 3 ≤ bullishCount then
          { trend := Sig.bullish, strength := (bullishCount : ℚ) / 4,
            ema9 := some e9, ema21 := some e21, ema50 := some e50 }
        else if bullishCount ≤ 1 then
          { trend := Sig.bearish, strength := ((4 - bullishCount : ℕ) : ℚ) / 4,
            ema9 := some e9, ema21 := some e21, ema50 := some e50 }
        else
          { trend := Sig.neutral, strength := (5/10 : ℚ),
            ema9 := some e9, ema21 := some e21, ema50 := some e50 }
    | _, _, _ =>
      { trend := Sig.neutral, strength := 0, ema9 := none, ema21 := none, ema50 := none }

/-- Result record of `calculate_momentum`.  The short-series early return has
no `bullish` key, modelled as `none`. -/
structure MomentumOut where
  momentum : ℚ
  roc : ℚ
  bullish : Option Bool
  deriving DecidableEq, Repr

/-- Embedding of `calculate_momentum` (`indicators.py` lines 401-416). -/
def calculateMomentum (prices : List ℚ) : MomentumOut :=
  if prices.length < 14 then { momentum := 0, roc := 0, bullish := none }
  else
    let pLast := prices.getLastD 0
    let p14 := prices.getD (prices.length - 14) 0
    let roc : ℚ := if p14 ≠ 0 then (pLast - p14) / p14 * 100 else 0
    { momentum := pLast - p14, roc := pyRound roc 2, bullish := some (decide (0 < roc)) }

/-- Embedding of `calculate_volatility` (`indicators.py` lines 419-434). -/
def calculateVolatility (prices : List ℚ) (period : ℕ) : ℚ :=
  if prices.length < period then 0
  else
    let recent := prices.drop (prices.length - period)
    let avg := recent.sum / (period : ℚ)
    if avg = 0 then 0
    else
      let changes := ((recent.drop 1).zip recent).filterMap fun pc =>
        if pc.2 ≠ 0 then some ((|pc.1 - pc.2| / pc.2 * 100 : ℚ)) else none
      if changes = [] then 0 else pyRound (changes.sum / changes.length) 2

/-- One OHLC candle as consumed by `analyze_ohlc_data`
(`[timestamp, open, high, low, close]`). -/
structure Candle where
  ts : ℚ
  opn : ℚ
  high : ℚ
  low : ℚ
  close : ℚ
  deriving DecidableEq, Repr

/-- The indicator bundle `analyze_ohlc_data` returns for a sufficiently long
series. -/
structure Analysis where
  rsi : Option ℚ
  macd : Option MacdOut
  bollinger : Option BollOut
  trend : TrendOut
  momentum : MomentumOut
  volatility : ℚ
  adx : Option AdxOut
  demark : Option DemarkResult
  price : ℚ
  deriving DecidableEq, Repr

/-- Embedding of `analyze_ohlc_data` (`indicators.py` lines 437-474): an empty
dictionary (`none`) for fewer than 50 candles, otherwise the full indicator
bundle. -/
def analyzeOhlcData (sqrtq : ℚ → ℚ) (ohlc : List Candle) : Option Analysis :=
  if ohlc.length < 50 then none
  else
    let highs := ohlc.map Candle.high
    let lows := ohlc.map Candle.low
    let closes := ohlc.map Candle.close
    some { rsi := calculateRsi closes 14,
           macd := calculateMacd closes,
           bollinger := calculateBollingerBands sqrtq closes 20 2,
           trend := calculateTrend closes,
           momentum := calculateMomentum closes,
           volatility := calculateVolatility closes 14,
           adx := calculateAdx highs lows closes 14,
           demark := calculateDemark closes,
           price := closes.getLastD 0 }

/-! ## Scoring engine (`backend/scoring.py`)

`calculate_final_score` consumes a dictionary keyed by the four configured
timeframes (`config.TIMEFRAMES`: 15m, 1h, 4h, 1d), each holding optional
per-indicator dictionaries.  Each entry record below carries exactly the
fields the scoring code reads; an `adx` entry is included in the model
because callers may supply one, even though `scoring.py` never reads it. -/

/-- Fields of an `rsi` entry read by the scoring engine. -/
structure RsiEntry where
  value : ℚ
  signal : Sig
  strength : ℚ
  deriving DecidableEq, Repr

/-- Fields of an `ema` entry read by the scoring engine. -/
structure EmaEntry where
  signal : Sig
  strength : ℚ
  priceAboveTrend : Bool
  fastAboveSlow : Bool
  deriving DecidableEq, Repr

/-- Fields of a `macd` entry read by the scoring engine. -/
structure MacdEntry where
  signal : Sig
  strength : ℚ
  histogramRising : Bool
  deriving DecidableEq, Repr

/-- Fields of a `bollinger` entry read by the scoring engine. -/
structure BollingerEntry where
  strength : ℚ
  percentB : ℚ
  deriving DecidableEq, Repr

/-- Fields of a `volume` entry read by the scoring engine. -/
structure VolumeEntry where
  strength : ℚ
  deriving DecidableEq, Repr

/-- An `adx` entry a caller may place in the per-timeframe dictionary.
`scoring.py` never reads it. -/
structure AdxEntry where
  value : ℚ
  deriving DecidableEq, Repr

/-- The per-timeframe indicator dictionary. -/
structure TFIndicators where
  rsi : Option RsiEntry
  ema : Option EmaEntry
  macd : Option MacdEntry
  bollinger : Option BollingerEntry
  volume : Option VolumeEntry
  adx : Option AdxEntry
  deriving DecidableEq, Repr

/-- The full `indicator_results` argument, keyed by the four configured
timeframes. -/
structure IndicatorResults where
  tf15m : Option TFIndicators
  tf1h : Option TFIndicators
  tf4h : Option TFIndicators
  tf1d : Option TFIndicators
  deriving DecidableEq, Repr

/-- The `funding_data` argument; only `funding_rate` is read. -/
structure FundingData where
  fundingRate : ℚ
  deriving DecidableEq, Repr

/-- The `oi_data` argument; `calculate_final_score` never reads it. -/
structure OiData where
  openInterest : ℚ
  deriving DecidableEq, Repr

/-- The `ls_ratio_data` argument; only `long_short_ratio` is read. -/
structure LsRatioData where
  longShortRatio : ℚ
  deriving DecidableEq, Repr

/-- Alignment record built by `count_aligned_timeframes`
(`scoring.py` lines 37-77). -/
structure Alignment where
  bullish : ℕ
  bearish : ℕ
  neutral : ℕ
  totalStrength : ℚ
  deriving DecidableEq, Repr

/-- Total number of timeframes counted. -/
def Alignment.total (a : Alignment) : ℕ := a.bullish + a.bearish + a.neutral

/-- `avg_strength`: mean strength over counted timeframes, `0` when none. -/
def Alignment.avgStrength (a : Alignment) : ℚ :=
  if a.total = 0 then 0 else a.totalStrength / (a.total : ℚ)

/-- The (signal, strength) entries a selector extracts from the four
timeframes, skipping absent timeframes and absent indicator entries —
the `continue`s of `count_aligned_timeframes`. -/
def alignEntries (rs : IndicatorResults) (sel : TFIndicators → Option (Sig × ℚ)) :
    List (Sig × ℚ) :=
  [rs.tf15m.bind sel, rs.tf1h.bind sel, rs.tf4h.bind sel, rs.tf1d.bind sel].filterMap id

/-- One step of the counting loop of `count_aligned_timeframes`: bump the
matching counter and accumulate the strength. -/
def alignStep (a : Alignment) (e : Sig × ℚ) : Alignment :=
  match e.1 with
  | Sig.bullish => { a with bullish := a.bullish + 1, totalStrength := a.totalStrength + e.2 }
  | Sig.bearish => { a with bearish := a.bearish + 1, totalStrength := a.totalStrength + e.2 }
  | Sig.neutral => { a with neutral := a.neutral + 1, totalStrength := a.totalStrength + e.2 }

/-- Embedding of the counting loop of `count_aligned_timeframes`. -/
def countAligned (entries : List (Sig × ℚ)) : Alignment :=
  entries.foldl alignStep { bullish := 0, bearish := 0, neutral := 0, totalStrength := 0 }

/-- Selector for `rsi` entries. -/
def rsiSel (tf : TFIndicators) : Option (Sig × ℚ) :=
  tf.rsi.map fun e => (e.signal, e.strength)

/-- Selector for `ema` entries. -/
def emaSel (tf : TFIndicators) : Option (Sig × ℚ) :=
  tf.ema.map fun e => (e.signal, e.strength)

/-- Selector for `macd` entries. -/
def macdSel (tf : TFIndicators) : Option (Sig × ℚ) :=
  tf.macd.map fun e => (e.signal, e.strength)

/-- Embedding of `score_rsi_multi_tf` (`scoring.py` lines 80-114); only the
`score` field feeds the composite. -/
def scoreRsiMultiTf (rs : IndicatorResults) : ℚ :=
  let a := countAligned (alignEntries rs rsiSel)
  if a.bullish = 4 then 1
  else if a.bullish = 3 then (7/10 : ℚ)
  else if a.bullish = 2 ∧ a.bearish = 0 then (4/10 : ℚ)
  else if a.bearish = 4 then -1
  else if a.bearish = 3 then -(7/10 : ℚ)
  else if a.bearish = 2 ∧ a.bullish = 0 then -(4/10 : ℚ)
  else a.avgStrength * (3/10 : ℚ)

/-- Trend confirm/deny counts of `score_ema_multi_tf` (`scoring.py`
lines 124-133): confirm when price is above trend and fast above slow,
deny when both fail, nothing otherwise. -/
def emaTrendCounts (rs : IndicatorResults) : ℕ × ℕ :=
  [rs.tf15m, rs.tf1h, rs.tf4h, rs.tf1d].foldl
    (fun c otf =>
      match otf with
      | none => c
      | some tf =>
        match tf.ema with
        | none => c
        | some e =>
          if e.priceAboveTrend && e.fastAboveSlow then (c.1 + 1, c.2)
          else if !e.priceAboveTrend && !e.fastAboveSlow then (c.1, c.2 + 1)
          else c)
    (0, 0)

/-- Embedding of `score_ema_multi_tf` (`scoring.py` lines 117-157); `emaBase`
is the alignment-based score before the trend confirm/deny boost. -/
def emaBase (rs : IndicatorResults) : ℚ :=
  let a := countAligned (alignEntries rs emaSel)
  if a.bullish = 4 then 1
  else if 3 ≤ a.bullish then (65/100 : ℚ)
  else if a.bearish = 4 then -1
  else if 3 ≤ a.bearish then -(65/100 : ℚ)
  else a.avgStrength * (4/10 : ℚ)

/-- The boost stage of `score_ema_multi_tf`: ±0.2 clamped when at least three
timeframes confirm (or deny) the trend. -/
def scoreEmaMultiTf (rs : IndicatorResults) : ℚ :=
  let tc := emaTrendCounts rs
  if 3 ≤ tc.1 then min 1 (emaBase rs + (2/10 : ℚ))
  else if 3 ≤ tc.2 then max (-1) (emaBase rs - (2/10 : ℚ))
  else emaBase rs

/-- Embedding of `score_macd_multi_tf` (`scoring.py` lines 160-194); the
histogram-direction counts do not enter the score. -/
def scoreMacdMultiTf (rs : IndicatorResults) : ℚ :=
  let a := countAligned (alignEntries rs macdSel)
  if a.bullish = 4 then 1
  else if 3 ≤ a.bullish then (6/10 : ℚ)
  else if a.bearish = 4 then -1
  else if 3 ≤ a.bearish then -(6/10 : ℚ)
  else a.avgStrength * (35/100 : ℚ)

/-- Result of `score_volume` (`scoring.py` lines 197-221).  The empty-input
dictionary has no `confirms_move` key, which downstream `.get` reads as
falsy. -/
structure VolumeScore where
  score : ℚ
  avgVolumeStrength : ℚ
  confirmsMove : Bool
  deriving DecidableEq, Repr

/-- Embedding of `score_volume`: volume never contributes direction
(`score = 0`); its average strength only gates the later boost. -/
def scoreVolume (rs : IndicatorResults) : VolumeScore :=
  let vs := ([rs.tf15m.bind TFIndicators.volume, rs.tf1h.bind TFIndicators.volume,
              rs.tf4h.bind TFIndicators.volume, rs.tf1d.bind TFIndicators.volume].filterMap
              id).map VolumeEntry.strength
  if vs = [] then { score := 0, avgVolumeStrength := 0, confirmsMove := false }
  else
    let avg := vs.sum / (vs.length : ℚ)
    { score := 0, avgVolumeStrength := avg, confirmsMove := decide ((5/10 : ℚ) < avg) }

/-- Embedding of `score_bollinger` (`scoring.py` lines 224-250): strengths
weighted by the per-timeframe table 15m ↦ 0.1, 1h ↦ 0.2, 4h ↦ 0.3, 1d ↦ 0.4,
divided by the weight actually present; `0` when nothing is present.
`bollAcc` is one step of its accumulation loop. -/
def bollAcc (p : ℚ × ℚ) (otf : Option TFIndicators) (w : ℚ) : ℚ × ℚ :=
  match otf with
  | some tf =>
    match tf.bollinger with
    | some b => (p.1 + b.strength * w, p.2 + w)
    | none => p
  | none => p

/-- The accumulated `(weighted_score, total_weight)` pair of
`score_bollinger`. -/
def bollPair (rs : IndicatorResults) : ℚ × ℚ :=
  bollAcc (bollAcc (bollAcc (bollAcc (0, 0) rs.tf15m (1/10 : ℚ)) rs.tf1h (2/10 : ℚ)) rs.tf4h (3/10 : ℚ)) rs.tf1d (4/10 : ℚ)

/-- The final quotient of `score_bollinger`. -/
def scoreBollinger (rs : IndicatorResults) : ℚ :=
  let p := bollPair rs
  if p.2 = 0 then 0 else p.1 / p.2

/-- Embedding of `score_liquidation_estimate` (`scoring.py` lines 253-303).
`oi_data` is accepted and ignored, as in the source. -/
def scoreLiquidation (rs : IndicatorResults) (funding : Option FundingData)
    (_oi : Option OiData) : ℚ :=
  let s1 : ℚ :=
    match rs.tf4h with
    | some tf =>
      match tf.bollinger with
      | some b => if (9/10 : ℚ) < b.percentB then -(3/10 : ℚ) else if b.percentB < (1/10 : ℚ) then (3/10 : ℚ) else 0
      | none => 0
    | none => 0
  let s2 : ℚ :=
    match funding with
    | some fd =>
      if (5/10000 : ℚ) < fd.fundingRate then s1 - (4/10 : ℚ)
      else if fd.fundingRate < -(5/10000 : ℚ) then s1 + (4/10 : ℚ)
      else if (2/10000 : ℚ) < fd.fundingRate then s1 - (2/10 : ℚ)
      else if fd.fundingRate < -(2/10000 : ℚ) then s1 + (2/10 : ℚ)
      else s1
    | none => s1
  max (-1) (min 1 s2)

/-- Embedding of `score_funding_sentiment` (`scoring.py` lines 306-346). -/
def scoreFundingSentiment (funding : Option FundingData)
    (lsRatio : Option LsRatioData) : ℚ :=
  let s1 : ℚ :=
    match funding with
    | some fd =>
      if (1/1000 : ℚ) < fd.fundingRate then -(6/10 : ℚ)
      else if (5/10000 : ℚ) < fd.fundingRate then -(3/10 : ℚ)
      else if fd.fundingRate < -(1/1000 : ℚ) then (6/10 : ℚ)
      else if fd.fundingRate < -(5/10000 : ℚ) then (3/10 : ℚ)
      else 0
    | none => 0
  let s2 : ℚ :=
    match lsRatio with
    | some ls =>
      if 2 < ls.longShortRatio then s1 - (3/10 : ℚ)
      else if (3/2 : ℚ) < ls.longShortRatio then s1 - (15/100 : ℚ)
      else if ls.longShortRatio < (5/10 : ℚ) then s1 + (3/10 : ℚ)
      else if ls.longShortRatio < (67/100 : ℚ) then s1 + (15/100 : ℚ)
      else s1
    | none => s1
  max (-1) (min 1 s2)

/-- The weighted sum of `calculate_final_score` (`scoring.py` lines 371-379),
with the weights of `config.SCORING_WEIGHTS` (`config.py` lines 148-156). -/
def compositeBase (rs : IndicatorResults) (funding : Option FundingData)
    (oi : Option OiData) (ls : Option LsRatioData) : ℚ :=
  scoreRsiMultiTf rs * (20/100 : ℚ) +
  scoreEmaMultiTf rs * (20/100 : ℚ) +
  scoreMacdMultiTf rs * (15/100 : ℚ) +
  (scoreVolume rs).score * (10/100 : ℚ) +
  scoreBollinger rs * (10/100 : ℚ) +
  scoreLiquidation rs funding oi * (10/100 : ℚ) +
  scoreFundingSentiment funding ls * (15/100 : ℚ)

/-- The composite after the optional volume boost (`scoring.py`
lines 381-384): when volume confirms and `|composite| > 0.2`, add `±0.1` and
clamp to `[-1, 1]`; otherwise the composite is left unclamped. -/
def compositeBoosted (rs : IndicatorResults) (funding : Option FundingData)
    (oi : Option OiData) (ls : Option LsRatioData) : ℚ :=
  let c := compositeBase rs funding oi ls
  if (scoreVolume rs).confirmsMove = true ∧ (2/10 : ℚ) < |c| then
    max (-1) (min 1 (c + (1/10 : ℚ) * (if 0 < c then 1 else -1)))
  else c

/-- The 7-tier discretisation of `calculate_final_score` (`scoring.py`
lines 387-402) with the default `config.SCORE_THRESHOLDS`
(`config.py` lines 163-170). -/
def finalScoreOf (c : ℚ) : ℤ :=
  if (6/10 : ℚ) ≤ c then 3
  else if (35/100 : ℚ) ≤ c then 2
  else if (15/100 : ℚ) ≤ c then 1
  else if c ≤ -(6/10 : ℚ) then -3
  else if c ≤ -(35/100 : ℚ) then -2
  else if c ≤ -(15/100 : ℚ) then -1
  else 0

/-- `SCORE_LABELS` (`scoring.py` lines 26-34). -/
def scoreLabel (s : ℤ) : String :=
  if s = -3 then "STRONG SHORT"
  else if s = -2 then "SHORT"
  else if s = -1 then "LEAN SHORT"
  else if s = 0 then "NEUTRAL"
  else if s = 1 then "LEAN LONG"
  else if s = 2 then "LONG"
  else "STRONG LONG"

/-- The `SignalScore` record returned to callers (`scoring.py` lines 16-23);
the breakdown dictionary repackages the component scores already modelled
above and is omitted. -/
structure SignalScore where
  score : ℤ
  label : String
  compositeScore : ℚ
  confidence : ℚ
  deriving DecidableEq, Repr

/-- Embedding of `calculate_final_score` (`scoring.py` lines 349-430):
weighted composite, optional volume boost, 7-tier discretisation, and a
confidence equal to the fraction of the five directional components whose
score has the strict sign of the composite. -/
def calculateFinalScore (rs : IndicatorResults) (funding : Option FundingData)
    (oi : Option OiData) (ls : Option LsRatioData) : SignalScore :=
  let composite := compositeBoosted rs funding oi ls
  let fs := finalScoreOf composite
  let agreements : ℚ :=
    (if 0 < scoreRsiMultiTf rs * composite then 1 else 0) +
    (if 0 < scoreEmaMultiTf rs * composite then 1 else 0) +
    (if 0 < scoreMacdMultiTf rs * composite then 1 else 0) +
    (if 0 < scoreBollinger rs * composite then 1 else 0) +
    (if 0 < scoreFundingSentiment funding ls * composite then 1 else 0)
  { score := fs, label := scoreLabel fs,
    compositeScore := pyRound composite 4,
    confidence := pyRound (agreements / 5) 2 }

/-! ## Definitions following the specification text

These definitions transcribe formulas from `spec.md` (sections 4.3 and 4.1)
for comparison against the source embeddings above.  They are used only in
refutations and are never part of the code model. -/

/-- Modelled from the spec: the 7-tier cutoffs the claim states
(`composite ≥ 0.55 → +3; ≥ 0.35 → +2; ≥ 0.15 → +1; ≥ −0.15 → 0; ≥ −0.35 → −1;
≥ −0.55 → −2; else −3`). -/
def specTier (c : ℚ) : ℤ :=
  if (55/100 : ℚ) ≤ c then 3
  else if (35/100 : ℚ) ≤ c then 2
  else if (15/100 : ℚ) ≤ c then 1
  else if -(15/100 : ℚ) ≤ c then 0
  else if -(35/100 : ℚ) ≤ c then -1
  else if -(55/100 : ℚ) ≤ c then -2
  else -3

/-- Modelled from the spec: the ADX-band composite modifier of section 4.3
step 3 (×0.85 below 20; per-band aligned/opposed factors above). -/
def specAdxModifier (a : ℚ) (aligned : Bool) : ℚ :=
  if a < 20 then (85/100 : ℚ)
  else if a < 30 then if aligned then (21/20 : ℚ) else (9/10 : ℚ)
  else if a < 40 then if aligned then (23/20 : ℚ) else (9/10 : ℚ)
  else if a < 50 then if aligned then (11/10 : ℚ) else (85/100 : ℚ)
  else if a < 60 then if aligned then (9/10 : ℚ) else 1
  else if aligned then (8/10 : ℚ) else (11/10 : ℚ)

/-- Modelled from the spec: the ADX-derived confidence term of section 4.3
step 5 (`<20 → 0.05, 20-40 → 0.15, 40-50 → 0.10, ≥50 → 0.05`). -/
def specAdxTerm (a : ℚ) : ℚ :=
  if a < 20 then (5/100 : ℚ)
  else if a < 40 then (15/100 : ℚ)
  else if a < 50 then (1/10 : ℚ)
  else (5/100 : ℚ)

/-- Modelled from the spec: `confidence = clamp(0.4 + 0.4·agreement + adx_term,
0, 1)` with `agreement = max(bullish_count, bearish_count) /
total_indicators_considered`. -/
def specConfidence (bullishCount bearishCount totalConsidered : ℕ) (adxVal : ℚ) : ℚ :=
  max 0 (min 1 ((4/10 : ℚ) + (4/10 : ℚ) * ((max bullishCount bearishCount : ℕ) : ℚ) / (totalConsidered : ℚ)
    + specAdxTerm adxVal))

/-- Whether any timeframe carries an `rsi` entry. -/
def rsiPresent (rs : IndicatorResults) : Bool :=
  (rs.tf15m.bind TFIndicators.rsi).isSome || (rs.tf1h.bind TFIndicators.rsi).isSome ||
  (rs.tf4h.bind TFIndicators.rsi).isSome || (rs.tf1d.bind TFIndicators.rsi).isSome

/-- Whether any timeframe carries an `ema` entry. -/
def emaPresent (rs : IndicatorResults) : Bool :=
  (rs.tf15m.bind TFIndicators.ema).isSome || (rs.tf1h.bind TFIndicators.ema).isSome ||
  (rs.tf4h.bind TFIndicators.ema).isSome || (rs.tf1d.bind TFIndicators.ema).isSome

/-- Whether any timeframe carries a `macd` entry. -/
def macdPresent (rs : IndicatorResults) : Bool :=
  (rs.tf15m.bind TFIndicators.macd).isSome || (rs.tf1h.bind TFIndicators.macd).isSome ||
  (rs.tf4h.bind TFIndicators.macd).isSome || (rs.tf1d.bind TFIndicators.macd).isSome

/-- Whether any timeframe carries a `volume` entry. -/
def volumePresent (rs : IndicatorResults) : Bool :=
  (rs.tf15m.bind TFIndicators.volume).isSome || (rs.tf1h.bind TFIndicators.volume).isSome ||
  (rs.tf4h.bind TFIndicators.volume).isSome || (rs.tf1d.bind TFIndicators.volume).isSome

/-- Whether any timeframe carries a `bollinger` entry. -/
def bollingerPresent (rs : IndicatorResults) : Bool :=
  (rs.tf15m.bind TFIndicators.bollinger).isSome || (rs.tf1h.bind TFIndicators.bollinger).isSome ||
  (rs.tf4h.bind TFIndicators.bollinger).isSome || (rs.tf1d.bind TFIndicators.bollinger).isSome

/-- Whether the liquidation component has any data (4h bollinger or funding). -/
def liquidationPresent (rs : IndicatorResults) (funding : Option FundingData) : Bool :=
  (rs.tf4h.bind TFIndicators.bollinger).isSome || funding.isSome

/-- Whether the funding-sentiment component has any data. -/
def fundingSentimentPresent (funding : Option FundingData) (ls : Option LsRatioData) : Bool :=
  funding.isSome || ls.isSome

/-- Modelled from the spec: the weighted sum normalized by the sum of the
weights of the indicators actually present (section 4.3 step 2,
"normalized by the sum of weights actually used"). -/
def specNormalizedBase (rs : IndicatorResults) (funding : Option FundingData)
    (oi : Option OiData) (ls : Option LsRatioData) : ℚ :=
  let num : ℚ :=
    (if rsiPresent rs then scoreRsiMultiTf rs * (20/100 : ℚ) else 0) +
    (if emaPresent rs then scoreEmaMultiTf rs * (20/100 : ℚ) else 0) +
    (if macdPresent rs then scoreMacdMultiTf rs * (15/100 : ℚ) else 0) +
    (if volumePresent rs then (scoreVolume rs).score * (10/100 : ℚ) else 0) +
    (if bollingerPresent rs then scoreBollinger rs * (10/100 : ℚ) else 0) +
    (if liquidationPresent rs funding then scoreLiquidation rs funding oi * (10/100 : ℚ) else 0) +
    (if fundingSentimentPresent funding ls then scoreFundingSentiment funding ls * (15/100 : ℚ) else 0)
  let den : ℚ :=
    (if rsiPresent rs then ((20/100 : ℚ) : ℚ) else 0) +
    (if emaPresent rs then ((20/100 : ℚ) : ℚ) else 0) +
    (if macdPresent rs then ((15/100 : ℚ) : ℚ) else 0) +
    (if volumePresent rs then ((10/100 : ℚ) : ℚ) else 0) +
    (if bollingerPresent rs then ((10/100 : ℚ) : ℚ) else 0) +
    (if liquidationPresent rs funding then ((10/100 : ℚ) : ℚ) else 0) +
    (if fundingSentimentPresent funding ls then ((15/100 : ℚ) : ℚ) else 0)
  if den = 0 then 0 else num / den

/-! ## Concrete inputs used in refutations and witnesses -/

/-- The empty `indicator_results` dictionary. -/
def emptyInput : IndicatorResults :=
  { tf15m := none, tf1h := none, tf4h := none, tf1d := none }

/-- A timeframe dictionary holding only a `bollinger` entry of the given
strength. -/
def tfBollOnly (s : ℚ) : TFIndicators :=
  { rsi := none, ema := none, macd := none,
    bollinger := some { strength := s, percentB := 1/2 }, volume := none, adx := none }

/-- Indicator results holding only a 1d `bollinger` entry of the given
strength. -/
def bollOnlyInput (s : ℚ) : IndicatorResults :=
  { tf15m := none, tf1h := none, tf4h := none, tf1d := some (tfBollOnly s) }

/-- A 1d dictionary with a bullish RSI of strength 0.8 and an ADX value of 10,
and nothing else. -/
def tfRsiAdx : TFIndicators :=
  { rsi := some { value := 25, signal := Sig.bullish, strength := 4/5 },
    ema := none, macd := none, bollinger := none, volume := none,
    adx := some { value := 10 } }

/-- Indicator results whose only timeframe is `tfRsiAdx`. -/
def rsiAdxInput : IndicatorResults :=
  { tf15m := none, tf1h := none, tf4h := none, tf1d := some tfRsiAdx }

/-- Indicator results with only a 1d `bollinger` entry of strength 1 plus an
ADX value of 10 in the same timeframe. -/
def bollAdxInput : IndicatorResults :=
  { tf15m := none, tf1h := none, tf4h := none,
    tf1d := some { rsi := none, ema := none, macd := none,
                   bollinger := some { strength := 1, percentB := 1/2 },
                   volume := none, adx := some { value := 10 } } }

/-- A 16-price series whose first delta is a 10-point loss followed by
fourteen 1-point gains; the source RSI ignores the loss (it only averages the
last 14 deltas), a Wilder-smoothed RSI does not. -/
def pricesWilder : List ℚ :=
  [100, 90, 91, 92, 93, 94, 95, 96, 97, 98, 99, 100, 101, 102, 103, 104]

/-! ## Auxiliary definitions for the claims -/

/-- Replace the `adx` entry of every present timeframe dictionary. -/
def setAdx (rs : IndicatorResults) (a : Option AdxEntry) : IndicatorResults :=
  { tf15m := rs.tf15m.map fun tf => { tf with adx := a },
    tf1h := rs.tf1h.map fun tf => { tf with adx := a },
    tf4h := rs.tf4h.map fun tf => { tf with adx := a },
    tf1d := rs.tf1d.map fun tf => { tf with adx := a } }

/-- A strength value inside the documented `[-1, 1]` range. -/
def entryOk (q : ℚ) : Bool := decide (-1 ≤ q ∧ q ≤ 1)

/-- All strengths of a timeframe dictionary lie in `[-1, 1]`. -/
def tfOk (tf : TFIndicators) : Bool :=
  (tf.rsi.all fun e => entryOk e.strength) &&
  (tf.ema.all fun e => entryOk e.strength) &&
  (tf.macd.all fun e => entryOk e.strength) &&
  (tf.bollinger.all fun e => entryOk e.strength)

/-- All strengths supplied to the scoring engine lie in `[-1, 1]`. -/
def strengthsBounded (rs : IndicatorResults) : Bool :=
  rs.tf15m.all tfOk && rs.tf1h.all tfOk && rs.tf4h.all tfOk && rs.tf1d.all tfOk

/-! ## General lemmas about rounding -/

theorem rhe_intCast (k : ℤ) : rhe (k : ℚ) = k := by
  simp [rhe]

/-- If `q * 10^n` is an integer then rounding changes nothing. -/
theorem pyRound_eq_self (q : ℚ) (n : ℕ) (k : ℤ) (h : q * 10 ^ n = (k : ℚ)) :
    pyRound q n = q := by
  have h10 : ((10 : ℚ) ^ n) ≠ 0 := by positivity
  rw [pyRound, h, rhe_intCast, ← h, mul_div_assoc, div_self h10, mul_one]

theorem rhe_le_of_le (q : ℚ) (B : ℤ) (h : q ≤ (B : ℚ)) : rhe q ≤ B := by
  rw [rhe]
  have hfl : (⌊q⌋ : ℚ) ≤ q := Int.floor_le q
  have hfB : ⌊q⌋ ≤ B := by
    have := Int.floor_le_floor h
    simpa using this
  split_ifs with h1 h2 h3
  · exact hfB
  · -- q - ⌊q⌋ > 1/2, so ⌊q⌋ + 1 ≤ q + 1/2 ≤ B + 1/2 < B + 1
    have : (⌊q⌋ : ℚ) + 1 < (B : ℚ) + 1 := by linarith
    have : ⌊q⌋ + 1 < B + 1 := by exact_mod_cast this
    omega
  · exact hfB
  · have h2' : (1 : ℚ)/2 ≤ q - ⌊q⌋ := le_of_not_lt h1
    have : (⌊q⌋ : ℚ) + 1 ≤ (B : ℚ) + 1/2 := by linarith
    have : ((⌊q⌋ + 1 : ℤ) : ℚ) < ((B + 1 : ℤ) : ℚ) := by push_cast; linarith
    have : ⌊q⌋ + 1 < B + 1 := by exact_mod_cast this
    omega

theorem le_rhe_of_le (q : ℚ) (B : ℤ) (h : (B : ℚ) ≤ q) : B ≤ rhe q := by
  rw [rhe]
  have hfB : B ≤ ⌊q⌋ := by
    have := Int.floor_le_floor h
    simpa using this
  split_ifs <;> omega

/-- Rounding preserves a symmetric integer bound. -/
theorem pyRound_bounds (q : ℚ) (n : ℕ) (h1 : -1 ≤ q) (h2 : q ≤ 1) :
    -1 ≤ pyRound q n ∧ pyRound q n ≤ 1 := by
  have h10 : (0 : ℚ) < (10 : ℚ) ^ n := by positivity
  have hub : q * 10 ^ n ≤ ((10 ^ n : ℤ) : ℚ) := by
    push_cast
    nlinarith
  have hlb : ((-(10 ^ n) : ℤ) : ℚ) ≤ q * 10 ^ n := by
    push_cast
    nlinarith
  have hu := rhe_le_of_le (q * 10 ^ n) (10 ^ n) hub
  have hl := le_rhe_of_le (q * 10 ^ n) (-(10 ^ n)) hlb
  constructor
  · rw [pyRound, le_div_iff₀ h10]
    calc (-1 : ℚ) * 10 ^ n = ((-(10 ^ n) : ℤ) : ℚ) := by push_cast; ring
    _ ≤ (rhe (q * 10 ^ n) : ℚ) := by exact_mod_cast hl
  · rw [pyRound, div_le_iff₀ h10]
    calc (rhe (q * 10 ^ n) : ℚ) ≤ ((10 ^ n : ℤ) : ℚ) := by exact_mod_cast hu
    _ = (1 : ℚ) * 10 ^ n := by push_cast; ring

/-- Rounding preserves membership in `[0, 1]`. -/
theorem pyRound_bounds01 (q : ℚ) (n : ℕ) (h1 : 0 ≤ q) (h2 : q ≤ 1) :
    0 ≤ pyRound q n ∧ pyRound q n ≤ 1 := by
  have h10 : (0 : ℚ) < (10 : ℚ) ^ n := by positivity
  have hub : q * 10 ^ n ≤ ((10 ^ n : ℤ) : ℚ) := by
    push_cast
    nlinarith
  have hlb : ((0 : ℤ) : ℚ) ≤ q * 10 ^ n := by positivity
  have hu := rhe_le_of_le (q * 10 ^ n) (10 ^ n) hub
  have hl := le_rhe_of_le (q * 10 ^ n) 0 hlb
  constructor
  · rw [pyRound]
    apply div_nonneg _ (le_of_lt h10)
    exact_mod_cast hl
  · rw [pyRound, div_le_iff₀ h10]
    calc (rhe (q * 10 ^ n) : ℚ) ≤ ((10 ^ n : ℤ) : ℚ) := by exact_mod_cast hu
    _ = (1 : ℚ) * 10 ^ n := by push_cast; ring

/-! ## Claim C1: tier cutoffs -/

/-- C1 counterexample: with only a 1d bollinger entry of strength 5.7 the
engine produces composite 0.57.  The claim's cutoffs (`≥ 0.55 → +3
"STRONG LONG"`) would assign tier +3, but the code (thresholds 0.6/0.35/0.15
from `config.SCORE_THRESHOLDS`) assigns +2 "LONG". -/
theorem c1_counterexample :
    (calculateFinalScore (bollOnlyInput (57/10)) none none none).score = 2 ∧
    (calculateFinalScore (bollOnlyInput (57/10)) none none none).label = "LONG" ∧
    (calculateFinalScore (bollOnlyInput (57/10)) none none none).compositeScore = 57/100 ∧
    specTier (57/100) = 3 ∧ (2 : ℤ) ≠ 3 := by
  refine ⟨?_, ?_, ?_, ?_, ?_⟩ <;> with_unfolding_all decide

/-- C1 amended: the default cutoffs are 0.6/0.35/0.15 on the long side
(tested with `≥`) and −0.15/−0.35/−0.6 on the short side (tested with `≤`, so
composite −0.15 is already LEAN SHORT, −0.35 is SHORT and −0.6 is STRONG
SHORT), and each tier carries its `SCORE_LABELS` label. -/
theorem finalScoreOf_eq_iff (c : ℚ) :
    (finalScoreOf c = 3 ↔ 6/10 ≤ c) ∧
    (finalScoreOf c = 2 ↔ 35/100 ≤ c ∧ c < 6/10) ∧
    (finalScoreOf c = 1 ↔ 15/100 ≤ c ∧ c < 35/100) ∧
    (finalScoreOf c = 0 ↔ -(15/100) < c ∧ c < 15/100) ∧
    (finalScoreOf c = -1 ↔ -(35/100) < c ∧ c ≤ -(15/100)) ∧
    (finalScoreOf c = -2 ↔ -(6/10) < c ∧ c ≤ -(35/100)) ∧
    (finalScoreOf c = -3 ↔ c ≤ -(6/10)) := by
  unfold finalScoreOf
  split_ifs with h1 h2 h3 h4 h5 h6 <;>
    refine ⟨?_, ?_, ?_, ?_, ?_, ?_, ?_⟩ <;>
    constructor <;> intro hy <;>
    first
      | rfl
      | exact hy.elim
      | (exfalso; omega)
      | linarith
      | (constructor <;> linarith)

/-- C1 amended: the default cutoffs are 0.6/0.35/0.15 on the long side
(tested with `≥`) and −0.15/−0.35/−0.6 on the short side (tested with `≤`, so
composite −0.15 is already LEAN SHORT, −0.35 is SHORT and −0.6 is STRONG
SHORT), and each tier carries its `SCORE_LABELS` label. -/
theorem c1_tier_mapping (rs : IndicatorResults) (funding : Option FundingData)
    (oi : Option OiData) (ls : Option LsRatioData) :
    ((calculateFinalScore rs funding oi ls).score = 3 ↔
      6/10 ≤ compositeBoosted rs funding oi ls) ∧
    ((calculateFinalScore rs funding oi ls).score = 2 ↔
      35/100 ≤ compositeBoosted rs funding oi ls ∧ compositeBoosted rs funding oi ls < 6/10) ∧
    ((calculateFinalScore rs funding oi ls).score = 1 ↔
      15/100 ≤ compositeBoosted rs funding oi ls ∧ compositeBoosted rs funding oi ls < 35/100) ∧
    ((calculateFinalScore rs funding oi ls).score = 0 ↔
      -(15/100) < compositeBoosted rs funding oi ls ∧
        compositeBoosted rs funding oi ls < 15/100) ∧
    ((calculateFinalScore rs funding oi ls).score = -1 ↔
      -(35/100) < compositeBoosted rs funding oi ls ∧
        compositeBoosted rs funding oi ls ≤ -(15/100)) ∧
    ((calculateFinalScore rs funding oi ls).score = -2 ↔
      -(6/10) < compositeBoosted rs funding oi ls ∧
        compositeBoosted rs funding oi ls ≤ -(35/100)) ∧
    ((calculateFinalScore rs funding oi ls).score = -3 ↔
      compositeBoosted rs funding oi ls ≤ -(6/10)) ∧
    (calculateFinalScore rs funding oi ls).label =
      scoreLabel (calculateFinalScore rs funding oi ls).score := by
  have h := finalScoreOf_eq_iff (compositeBoosted rs funding oi ls)
  exact ⟨h.1, h.2.1, h.2.2.1, h.2.2.2.1, h.2.2.2.2.1, h.2.2.2.2.2.1, h.2.2.2.2.2.2, rfl⟩

/-! ## Claim C2: weight normalization -/

/-- C2 counterexample: with only a 1d bollinger entry of strength 1 present,
the spec's normalized base would be 1 (weighted sum 0.1 divided by the 0.1 of
weight actually used), but the code's composite is the plain weighted sum 0.1:
no normalization happens and omitting indicators does shrink the scale. -/
theorem c2_counterexample :
    compositeBase (bollOnlyInput 1) none none none = 1/10 ∧
    specNormalizedBase (bollOnlyInput 1) none none none = 1 ∧
    ((1/10 : ℚ) ≠ 1) := by
  refine ⟨?_, ?_, ?_⟩ <;> with_unfolding_all decide

/-- C2 amended: the composite base is the plain weighted sum with the fixed
`SCORING_WEIGHTS`; an indicator absent from every timeframe contributes a zero
score but its weight is never removed from any normalizer (there is none), so
the remaining terms keep their absolute weights. -/
theorem c2_no_normalization (rs : IndicatorResults) (funding : Option FundingData)
    (oi : Option OiData) (ls : Option LsRatioData)
    (h15 : rs.tf15m.bind rsiSel = none) (h1h : rs.tf1h.bind rsiSel = none)
    (h4h : rs.tf4h.bind rsiSel = none) (h1d : rs.tf1d.bind rsiSel = none) :
    scoreRsiMultiTf rs = 0 ∧
    compositeBase rs funding oi ls =
      scoreEmaMultiTf rs * (20/100) + scoreMacdMultiTf rs * (15/100) +
      (scoreVolume rs).score * (10/100) + scoreBollinger rs * (10/100) +
      scoreLiquidation rs funding oi * (10/100) +
      scoreFundingSentiment funding ls * (15/100) := by
  have hent : alignEntries rs rsiSel = [] := by
    unfold alignEntries
    rw [h15, h1h, h4h, h1d]
    rfl
  have hz : scoreRsiMultiTf rs = 0 := by
    unfold scoreRsiMultiTf
    rw [hent]
    with_unfolding_all decide
  refine ⟨hz, ?_⟩
  unfold compositeBase
  rw [hz]
  ring

/-- C2 witness: the amended statement instantiated at the empty input. -/
theorem c2_no_normalization_witness :
    scoreRsiMultiTf emptyInput = 0 ∧
    compositeBase emptyInput none none none =
      scoreEmaMultiTf emptyInput * (20/100) + scoreMacdMultiTf emptyInput * (15/100) +
      (scoreVolume emptyInput).score * (10/100) + scoreBollinger emptyInput * (10/100) +
      scoreLiquidation emptyInput none none * (10/100) +
      scoreFundingSentiment none none * (15/100) :=
  c2_no_normalization emptyInput none none none rfl rfl rfl rfl

/-! ## Claim C3: ADX modifier -/

theorem alignEntries_setAdx (rs : IndicatorResults) (a : Option AdxEntry)
    (sel : TFIndicators → Option (Sig × ℚ))
    (hsel : ∀ tf, sel { tf with adx := a } = sel tf) :
    alignEntries (setAdx rs a) sel = alignEntries rs sel := by
  unfold alignEntries setAdx
  cases rs.tf15m <;> cases rs.tf1h <;> cases rs.tf4h <;> cases rs.tf1d <;>
    simp [hsel]

theorem emaTrendCounts_setAdx (rs : IndicatorResults) (a : Option AdxEntry) :
    emaTrendCounts (setAdx rs a) = emaTrendCounts rs := by
  unfold emaTrendCounts setAdx
  cases rs.tf15m <;> cases rs.tf1h <;> cases rs.tf4h <;> cases rs.tf1d <;> rfl

theorem scoreRsiMultiTf_setAdx (rs : IndicatorResults) (a : Option AdxEntry) :
    scoreRsiMultiTf (setAdx rs a) = scoreRsiMultiTf rs := by
  unfold scoreRsiMultiTf
  rw [alignEntries_setAdx rs a rsiSel fun tf => rfl]

theorem emaBase_setAdx (rs : IndicatorResults) (a : Option AdxEntry) :
    emaBase (setAdx rs a) = emaBase rs := by
  unfold emaBase
  rw [alignEntries_setAdx rs a emaSel fun tf => rfl]

theorem scoreEmaMultiTf_setAdx (rs : IndicatorResults) (a : Option AdxEntry) :
    scoreEmaMultiTf (setAdx rs a) = scoreEmaMultiTf rs := by
  unfold scoreEmaMultiTf
  rw [emaBase_setAdx, emaTrendCounts_setAdx]

theorem scoreMacdMultiTf_setAdx (rs : IndicatorResults) (a : Option AdxEntry) :
    scoreMacdMultiTf (setAdx rs a) = scoreMacdMultiTf rs := by
  unfold scoreMacdMultiTf
  rw [alignEntries_setAdx rs a macdSel fun tf => rfl]

theorem scoreVolume_setAdx (rs : IndicatorResults) (a : Option AdxEntry) :
    scoreVolume (setAdx rs a) = scoreVolume rs := by
  unfold scoreVolume setAdx
  cases rs.tf15m <;> cases rs.tf1h <;> cases rs.tf4h <;> cases rs.tf1d <;> rfl

theorem scoreBollinger_setAdx (rs : IndicatorResults) (a : Option AdxEntry) :
    scoreBollinger (setAdx rs a) = scoreBollinger rs := by
  unfold scoreBollinger bollPair setAdx
  cases rs.tf15m <;> cases rs.tf1h <;> cases rs.tf4h <;> cases rs.tf1d <;> rfl

theorem scoreLiquidation_setAdx (rs : IndicatorResults) (a : Option AdxEntry)
    (funding : Option FundingData) (oi : Option OiData) :
    scoreLiquidation (setAdx rs a) funding oi = scoreLiquidation rs funding oi := by
  unfold scoreLiquidation setAdx
  cases rs.tf4h <;> rfl

/-- C3 amended: `calculate_final_score` never reads ADX at all — replacing (or
deleting) the `adx` entry of every timeframe with any value leaves the whole
returned record unchanged, so no ADX-band modifier is applied to the
composite. -/
theorem c3_adx_ignored (rs : IndicatorResults) (funding : Option FundingData)
    (oi : Option OiData) (ls : Option LsRatioData) (a : Option AdxEntry) :
    calculateFinalScore (setAdx rs a) funding oi ls = calculateFinalScore rs funding oi ls := by
  have hbase : compositeBase (setAdx rs a) funding oi ls = compositeBase rs funding oi ls := by
    unfold compositeBase
    rw [scoreRsiMultiTf_setAdx, scoreEmaMultiTf_setAdx, scoreMacdMultiTf_setAdx,
      scoreVolume_setAdx, scoreBollinger_setAdx, scoreLiquidation_setAdx]
  have hboost : compositeBoosted (setAdx rs a) funding oi ls =
      compositeBoosted rs funding oi ls := by
    unfold compositeBoosted
    rw [hbase, scoreVolume_setAdx]
  unfold calculateFinalScore
  rw [hboost, scoreRsiMultiTf_setAdx, scoreEmaMultiTf_setAdx, scoreMacdMultiTf_setAdx,
    scoreBollinger_setAdx]

/-- C3 counterexample: an invocation with ADX available (value 10, the `<20`
band, whose spec modifier is ×0.85 regardless of DI alignment) and weighted
base 0.1.  The spec formula `clamp(base · modifier)` yields 0.085, but the
engine returns composite 0.1: the modifier is never applied. -/
theorem c3_counterexample :
    (bollAdxInput.tf1d.bind TFIndicators.adx).isSome = true ∧
    compositeBase bollAdxInput none none none = 1/10 ∧
    (calculateFinalScore bollAdxInput none none none).compositeScore = 1/10 ∧
    specAdxModifier 10 true = 85/100 ∧
    specAdxModifier 10 false = 85/100 ∧
    ((1/10 : ℚ) ≠ max (-1) (min 1 ((1/10) * (85/100)))) := by
  refine ⟨?_, ?_, ?_, ?_, ?_, ?_⟩ <;> with_unfolding_all decide

/-! ## Claim C4: confidence formula -/

theorem if01_nat_cast (P : Prop) [Decidable P] :
    ((if P then (1 : ℕ) else 0) : ℚ) = (if P then (1 : ℚ) else 0) := by
  split_ifs <;> simp

/-- The agreement sum of `calculate_final_score` is a natural number at most
5. -/
theorem agreements_nat (P1 P2 P3 P4 P5 : Prop) [Decidable P1] [Decidable P2]
    [Decidable P3] [Decidable P4] [Decidable P5] :
    ∃ k : ℕ, k ≤ 5 ∧
      (if P1 then (1 : ℚ) else 0) + (if P2 then (1 : ℚ) else 0) +
      (if P3 then (1 : ℚ) else 0) + (if P4 then (1 : ℚ) else 0) +
      (if P5 then (1 : ℚ) else 0) = (k : ℚ) := by
  refine ⟨(if P1 then 1 else 0) + (if P2 then 1 else 0) + (if P3 then 1 else 0) +
    (if P4 then 1 else 0) + (if P5 then 1 else 0), ?_, ?_⟩
  · split_ifs <;> norm_num
  · push_cast [if01_nat_cast]
    rfl

/-- C4 counterexample: with a single bullish RSI entry of strength 0.8 (the
only indicator with strength magnitude above 0.1) and ADX available at 10, the
spec formula gives `clamp(0.4 + 0.4·(1/1) + 0.05) = 0.85`, but the engine
returns confidence 0.2 (one agreeing component out of five). -/
theorem c4_counterexample :
    (rsiAdxInput.tf1d.bind TFIndicators.adx).isSome = true ∧
    (calculateFinalScore rsiAdxInput none none none).confidence = 1/5 ∧
    specConfidence 1 0 1 10 = 17/20 ∧
    ((1/5 : ℚ) ≠ 17/20) := by
  refine ⟨?_, ?_, ?_, ?_⟩ <;> with_unfolding_all decide

/-- C4 amended: confidence is the number of the five directional components
(RSI, EMA, MACD, Bollinger, funding) whose score has the same strict sign as
the composite, divided by 5 — there is no 0.4 baseline and no ADX term, and
the 2-decimal rounding is exact on such fractions. -/
theorem c4_confidence_formula (rs : IndicatorResults) (funding : Option FundingData)
    (oi : Option OiData) (ls : Option LsRatioData) :
    (calculateFinalScore rs funding oi ls).confidence =
      ((if 0 < scoreRsiMultiTf rs * compositeBoosted rs funding oi ls then (1 : ℚ) else 0) +
       (if 0 < scoreEmaMultiTf rs * compositeBoosted rs funding oi ls then (1 : ℚ) else 0) +
       (if 0 < scoreMacdMultiTf rs * compositeBoosted rs funding oi ls then (1 : ℚ) else 0) +
       (if 0 < scoreBollinger rs * compositeBoosted rs funding oi ls then (1 : ℚ) else 0) +
       (if 0 < scoreFundingSentiment funding ls * compositeBoosted rs funding oi ls
          then (1 : ℚ) else 0)) / 5 := by
  obtain ⟨k, hk5, hk⟩ := agreements_nat
    (0 < scoreRsiMultiTf rs * compositeBoosted rs funding oi ls)
    (0 < scoreEmaMultiTf rs * compositeBoosted rs funding oi ls)
    (0 < scoreMacdMultiTf rs * compositeBoosted rs funding oi ls)
    (0 < scoreBollinger rs * compositeBoosted rs funding oi ls)
    (0 < scoreFundingSentiment funding ls * compositeBoosted rs funding oi ls)
  have hc : (calculateFinalScore rs funding oi ls).confidence =
      pyRound (((if 0 < scoreRsiMultiTf rs * compositeBoosted rs funding oi ls
          then (1 : ℚ) else 0) +
        (if 0 < scoreEmaMultiTf rs * compositeBoosted rs funding oi ls then (1 : ℚ) else 0) +
        (if 0 < scoreMacdMultiTf rs * compositeBoosted rs funding oi ls then (1 : ℚ) else 0) +
        (if 0 < scoreBollinger rs * compositeBoosted rs funding oi ls then (1 : ℚ) else 0) +
        (if 0 < scoreFundingSentiment funding ls * compositeBoosted rs funding oi ls
          then (1 : ℚ) else 0)) / 5) 2 := rfl
  rw [hc, hk]
  exact pyRound_eq_self _ 2 (20 * k) (by push_cast; ring)

/-! ## Claim C5: RSI smoothing -/

set_option maxRecDepth 2000 in
/-- C5 counterexample: on a 16-price series whose first delta is a large loss
followed by gains, the source RSI (simple average over the last 14 deltas
only) sees no loss and returns exactly 100, while the Wilder-smoothed RSI the
spec describes retains the loss and returns 18300/313 ≈ 58.5.  The source does
not smooth across the whole history. -/
theorem c5_counterexample :
    calculateRsi pricesWilder 14 = some 100 ∧
    specWilderRsi pricesWilder 14 = some (18300/313) ∧
    some (100 : ℚ) ≠ some ((18300 : ℚ)/313) := by
  refine ⟨by with_unfolding_all decide, ?_, by norm_num⟩
  norm_num [specWilderRsi, priceChanges, pricesWilder]

/-- C5 amended: the source RSI averages gains and losses over only the most
recent `period` deltas (no Wilder smoothing, no seeding from the first
`period` deltas).  It returns absent for fewer than `period + 1` prices, and
returns exactly 100 whenever none of those recent deltas is a loss — in
particular for any all-constant series of sufficient length. -/
theorem c5_rsi_recent_average (prices : List ℚ) (period : ℕ) :
    (prices.length < period + 1 → calculateRsi prices period = none) ∧
    (period + 1 ≤ prices.length →
      (∀ d ∈ rsiRecentChanges prices period, 0 ≤ d) →
      calculateRsi prices period = some 100) := by
  constructor
  · intro hshort
    unfold calculateRsi
    rw [if_pos hshort]
  · intro hlong hpos
    have hns : ¬ prices.length < period + 1 := by omega
    have hz : ((rsiRecentChanges prices period).map fun c =>
        if c < 0 then -c else 0).sum = 0 := by
      apply List.sum_eq_zero
      intro x hx
      rw [List.mem_map] at hx
      obtain ⟨c, hc, rfl⟩ := hx
      rw [if_neg (not_lt.mpr (hpos c hc))]
    unfold calculateRsi
    rw [if_neg hns]
    simp [hz, zero_div]

/-- C5 witness: a constant 15-price series has length `period + 1`, all recent
deltas are `0 ≥ 0`, and the RSI is exactly 100. -/
theorem c5_rsi_recent_average_witness :
    calculateRsi (List.replicate 15 5) 14 = some 100 :=
  (c5_rsi_recent_average (List.replicate 15 5) 14).2
    (by with_unfolding_all decide) (by with_unfolding_all decide)

/-! ## Claim C6: DeMark transitions and sell-setup completion -/

theorem getElem_idx_eq (l : List ℚ) (i j : ℕ) (hi : i < l.length) (hj : j < l.length)
    (h : i = j) : l[i] = l[j] := by
  subst h
  rfl

theorem demarkStep_lt (st : ℕ × ℕ) (bar : ℚ × ℚ) (h : bar.1 < bar.2) :
    demarkStep st bar = (min (st.1 + 1) 9, 0) := by
  unfold demarkStep
  rw [if_pos h]
  have hmin : (if 9 ≤ st.1 + 1 then 9 else st.1 + 1) = min (st.1 + 1) 9 := by
    split_ifs <;> omega
  rw [hmin]

theorem demarkStep_gt (st : ℕ × ℕ) (bar : ℚ × ℚ) (h : bar.2 < bar.1) :
    demarkStep st bar = (0, min (st.2 + 1) 9) := by
  unfold demarkStep
  rw [if_neg (by linarith), if_pos h]
  have hmin : (if 9 ≤ st.2 + 1 then 9 else st.2 + 1) = min (st.2 + 1) 9 := by
    split_ifs <;> omega
  rw [hmin]

theorem demarkStep_eq (st : ℕ × ℕ) (bar : ℚ × ℚ) (h : bar.1 = bar.2) :
    demarkStep st bar = (0, 0) := by
  unfold demarkStep
  rw [if_neg (by rw [h]; exact lt_irrefl _), if_neg (by rw [h]; exact lt_irrefl _)]

/-- Folding the DeMark step over a non-empty run of bars that all close below
their 4-bar-lookback comparison yields sell count `min (start + length) 9` and
buy count 0. -/
theorem demark_foldl_lt (l : List (ℚ × ℚ)) (st : ℕ × ℕ) (hne : l ≠ [])
    (hall : ∀ p ∈ l, p.1 < p.2) :
    l.foldl demarkStep st = (min (st.1 + l.length) 9, 0) := by
  induction l generalizing st with
  | nil => exact absurd rfl hne
  | cons p t ih =>
    rw [List.foldl_cons, demarkStep_lt st p (hall p (List.mem_cons_self p t))]
    cases t with
    | nil => simp
    | cons q t2 =>
      rw [ih (min (st.1 + 1) 9, 0) (by simp) fun r hr => hall r (List.mem_cons_of_mem p hr)]
      simp only [Prod.mk.injEq, List.length_cons, and_true]
      omega

/-- C6: the DeMark forward scan behaves as claimed.  A bar closing below its
4-bar lookback resets any buy count and increments the sell count capped at 9;
a bar closing above resets any sell count and increments the buy count capped
at 9; an equal close resets both counts.  Consequently, a series of length at
least 13 whose last nine bars all close below their 4-bar lookback produces
count 9, a sell setup, completed, with expected bullish reversal. -/
theorem c6_demark_transitions :
    (∀ (st : ℕ × ℕ) (bar : ℚ × ℚ), bar.1 < bar.2 →
      demarkStep st bar = (min (st.1 + 1) 9, 0)) ∧
    (∀ (st : ℕ × ℕ) (bar : ℚ × ℚ), bar.2 < bar.1 →
      demarkStep st bar = (0, min (st.2 + 1) 9)) ∧
    (∀ (st : ℕ × ℕ) (bar : ℚ × ℚ), bar.1 = bar.2 →
      demarkStep st bar = (0, 0)) ∧
    (∀ closes : List ℚ, 13 ≤ closes.length →
      (∀ i (hi : i < closes.length), closes.length - 9 ≤ i →
        closes.get ⟨i, hi⟩ < closes.get ⟨i - 4, lt_of_le_of_lt (Nat.sub_le i 4) hi⟩) →
      calculateDemark closes =
        some { count := 9, direction := some SetupKind.sell, signal := some Sig.bullish,
               active := true, completed := true }) := by
  refine ⟨demarkStep_lt, demarkStep_gt, demarkStep_eq, ?_⟩
  intro closes hlen h
  have hplen : ((closes.drop 4).zip closes).length = closes.length - 4 := by
    rw [List.length_zip, List.length_drop]
    omega
  set pairs := (closes.drop 4).zip closes with hpairs
  set m := pairs.length - 9 with hm
  have hdlen : (pairs.drop m).length = 9 := by
    rw [List.length_drop]
    omega
  have hall : ∀ p ∈ pairs.drop m, p.1 < p.2 := by
    intro p hp
    rw [List.mem_iff_getElem] at hp
    obtain ⟨k, hk, hget⟩ := hp
    have hk9 : k < 9 := by omega
    have hmk : m + k < pairs.length := by omega
    have hmk1 : m + k < (closes.drop 4).length := by
      rw [List.length_drop]
      omega
    have hmk2 : 4 + (m + k) < closes.length := by omega
    have hidx : (pairs.drop m)[k] = pairs[m + k] := List.getElem_drop pairs
    have hzip : pairs[m + k] = ((closes.drop 4)[m + k], closes[m + k]) := List.getElem_zip
    have hdrop : (closes.drop 4)[m + k] = closes[4 + (m + k)] := List.getElem_drop closes
    have hlt := h (4 + (m + k)) (by omega) (by omega)
    simp only [List.get_eq_getElem] at hlt
    have hco : closes[4 + (m + k) - 4] = closes[m + k] :=
      getElem_idx_eq closes (4 + (m + k) - 4) (m + k) (by omega) (by omega) (by omega)
    rw [hco] at hlt
    rw [← hget, hidx, hzip, hdrop]
    exact hlt
  have hfold : pairs.foldl demarkStep (0, 0) = (9, 0) := by
    have hsplit : pairs.foldl demarkStep (0, 0) =
        (pairs.take m ++ pairs.drop m).foldl demarkStep (0, 0) := by
      rw [List.take_append_drop]
    rw [hsplit, List.foldl_append]
    rw [demark_foldl_lt (pairs.drop m) _ (by rw [← List.length_pos_iff_ne_nil]; omega) hall,
      hdlen]
    simp only [Prod.mk.injEq, and_true]
    omega
  unfold calculateDemark
  rw [if_neg (by omega)]
  rw [← hpairs, hfold]
  norm_num

/-- C6 witness: a strictly decreasing 13-price series; every bar from index 4
on closes below its 4-bar lookback, and the scan reports a completed sell
setup with count 9. -/
theorem c6_demark_transitions_witness :
    calculateDemark [13, 12, 11, 10, 9, 8, 7, 6, 5, 4, 3, 2, 1] =
      some { count := 9, direction := some SetupKind.sell, signal := some Sig.bullish,
             active := true, completed := true } := by
  apply c6_demark_transitions.2.2.2
  · norm_num
  · intro i hi hge
    simp only [List.length_cons, List.length_nil] at hi hge
    interval_cases i <;> norm_num [List.get]

/-! ## Claim C7: ADX minimum length -/

/-- C7 amended (the "only if" half of the claim): for series of equal length
below `2·period` the ADX is always absent.  Every early exit of
`calculate_adx` in that regime returns `None`: the `period + 1` guard, the
true-range length guard, and otherwise the DX list (at most
`length − period < period` entries) fails its final length check. -/
theorem c7_adx_min_length (highs lows closes : List ℚ) (period : ℕ)
    (hl : lows.length = highs.length)
    (hc : closes.length = highs.length) (hn : highs.length < 2 * period) :
    calculateAdx highs lows closes period = none := by
  have htr : (trueRanges highs lows closes).length = highs.length - 1 := by
    unfold trueRanges
    rw [List.length_map, List.length_zip, List.length_zip, List.length_drop,
      List.length_drop, hl, hc]
    omega
  have hstr : (wildersSmooth (trueRanges highs lows closes) period).length =
      highs.length - 1 - period + 1 := by
    unfold wildersSmooth
    rw [List.length_scanl, List.length_drop, htr]
  by_cases hshort : highs.length < period + 1
  · simp only [calculateAdx]
    rw [if_pos (by omega)]
  · simp only [calculateAdx]
    rw [if_neg (by omega), if_neg (by omega)]
    split_ifs with h3 h4 h5
    · rfl
    · rfl
    · rfl
    · exact absurd
        (lt_of_le_of_lt (List.length_filterMap_le _ _) (by rw [List.length_zip]; omega)) h5

/-- C7 witness: 20-bar series with period 14 (20 < 28) — absent. -/
theorem c7_adx_min_length_witness :
    calculateAdx (List.replicate 20 1) (List.replicate 20 1) (List.replicate 20 1) 14 = none :=
  c7_adx_min_length (List.replicate 20 1) (List.replicate 20 1) (List.replicate 20 1) 14
    (by simp) (by simp) (by simp)

/-- C7 counterexample (the "if" half of the claim fails): a constant series of
exactly `2·period = 28` bars still yields an absent ADX, because every true
range is zero and `calculate_adx` bails out on a zero smoothed TR.  So "at
least `2·period` bars" does not guarantee a result. -/
theorem c7_counterexample :
    (List.replicate 28 (100 : ℚ)).length = 2 * 14 ∧
    calculateAdx (List.replicate 28 100) (List.replicate 28 100)
      (List.replicate 28 100) 14 = none := by
  refine ⟨by simp, ?_⟩
  norm_num [calculateAdx, trueRanges, plusDmList, minusDmList, wildersSmooth,
    List.replicate, List.zip, List.zipWith, List.scanl]

/-! ## Claim C8: output ranges -/

theorem entryOk_bounds (q : ℚ) (h : entryOk q = true) : -1 ≤ q ∧ q ≤ 1 := by
  simpa [entryOk] using h

theorem alignStep_strength (a : Alignment) (e : Sig × ℚ) :
    (alignStep a e).totalStrength = a.totalStrength + e.2 := by
  obtain ⟨s, q⟩ := e
  cases s <;> rfl

theorem alignStep_total (a : Alignment) (e : Sig × ℚ) :
    (alignStep a e).total = a.total + 1 := by
  obtain ⟨s, q⟩ := e
  cases s <;> simp [alignStep, Alignment.total] <;> omega

theorem foldl_alignStep_bound (l : List (Sig × ℚ)) (a : Alignment)
    (hb : |a.totalStrength| ≤ (a.total : ℚ))
    (hl : ∀ e ∈ l, -1 ≤ e.2 ∧ e.2 ≤ 1) :
    |(l.foldl alignStep a).totalStrength| ≤ ((l.foldl alignStep a).total : ℚ) := by
  induction l generalizing a with
  | nil => exact hb
  | cons e t ih =>
    rw [List.foldl_cons]
    apply ih
    · obtain ⟨he1, he2⟩ := hl e (List.mem_cons_self e t)
      rw [alignStep_strength, alignStep_total]
      rw [abs_le] at hb ⊢
      push_cast
      constructor <;> linarith [hb.1, hb.2]
    · intro r hr
      exact hl r (List.mem_cons_of_mem e hr)

theorem countAligned_avg_bound (entries : List (Sig × ℚ))
    (hl : ∀ e ∈ entries, -1 ≤ e.2 ∧ e.2 ≤ 1) :
    -1 ≤ (countAligned entries).avgStrength ∧ (countAligned entries).avgStrength ≤ 1 := by
  have hb : |(countAligned entries).totalStrength| ≤ ((countAligned entries).total : ℚ) :=
    foldl_alignStep_bound entries _ (by simp [Alignment.total]) hl
  unfold Alignment.avgStrength
  split_ifs with h0
  · norm_num
  · have hpos : (0 : ℚ) < ((countAligned entries).total : ℚ) := by
      have : 0 < (countAligned entries).total := Nat.pos_of_ne_zero h0
      exact_mod_cast this
    rw [abs_le] at hb
    constructor
    · rw [le_div_iff₀ hpos]
      linarith [hb.1]
    · rw [div_le_one hpos]
      exact hb.2

theorem bind_sel_bounded (o : Option TFIndicators)
    (sel : TFIndicators → Option (Sig × ℚ)) (hok : o.all tfOk = true)
    (hsel : ∀ tf, tfOk tf = true → ∀ e, sel tf = some e → -1 ≤ e.2 ∧ e.2 ≤ 1)
    (e : Sig × ℚ) (he : o.bind sel = some e) : -1 ≤ e.2 ∧ e.2 ≤ 1 := by
  cases o with
  | none => cases he
  | some tf => exact hsel tf (by simpa [Option.all] using hok) e he

theorem alignEntries_bounded (rs : IndicatorResults)
    (sel : TFIndicators → Option (Sig × ℚ))
    (hb : strengthsBounded rs = true)
    (hsel : ∀ tf, tfOk tf = true → ∀ e, sel tf = some e → -1 ≤ e.2 ∧ e.2 ≤ 1) :
    ∀ e ∈ alignEntries rs sel, -1 ≤ e.2 ∧ e.2 ≤ 1 := by
  intro e he
  unfold strengthsBounded at hb
  simp only [Bool.and_eq_true] at hb
  obtain ⟨⟨⟨hb1, hb2⟩, hb3⟩, hb4⟩ := hb
  unfold alignEntries at he
  rw [List.mem_filterMap] at he
  obtain ⟨o, ho, hoe⟩ := he
  have hoe2 : o = some e := hoe
  subst hoe2
  simp only [List.mem_cons, List.not_mem_nil, or_false] at ho
  rcases ho with ho | ho | ho | ho
  · exact bind_sel_bounded _ sel hb1 hsel e ho.symm
  · exact bind_sel_bounded _ sel hb2 hsel e ho.symm
  · exact bind_sel_bounded _ sel hb3 hsel e ho.symm
  · exact bind_sel_bounded _ sel hb4 hsel e ho.symm

theorem rsiSel_bounded (tf : TFIndicators) (h : tfOk tf = true) :
    ∀ e, rsiSel tf = some e → -1 ≤ e.2 ∧ e.2 ≤ 1 := by
  intro e he
  unfold rsiSel at he
  cases hr : tf.rsi with
  | none => rw [hr] at he; cases he
  | some r =>
    rw [hr] at he
    obtain rfl : (r.signal, r.strength) = e := by simpa using he
    unfold tfOk at h
    simp only [Bool.and_eq_true] at h
    have := h.1.1.1
    rw [hr] at this
    exact entryOk_bounds r.strength (by simpa [Option.all] using this)

theorem emaSel_bounded (tf : TFIndicators) (h : tfOk tf = true) :
    ∀ e, emaSel tf = some e → -1 ≤ e.2 ∧ e.2 ≤ 1 := by
  intro e he
  unfold emaSel at he
  cases hr : tf.ema with
  | none => rw [hr] at he; cases he
  | some r =>
    rw [hr] at he
    obtain rfl : (r.signal, r.strength) = e := by simpa using he
    unfold tfOk at h
    simp only [Bool.and_eq_true] at h
    have := h.1.1.2
    rw [hr] at this
    exact entryOk_bounds r.strength (by simpa [Option.all] using this)

theorem macdSel_bounded (tf : TFIndicators) (h : tfOk tf = true) :
    ∀ e, macdSel tf = some e → -1 ≤ e.2 ∧ e.2 ≤ 1 := by
  intro e he
  unfold macdSel at he
  cases hr : tf.macd with
  | none => rw [hr] at he; cases he
  | some r =>
    rw [hr] at he
    obtain rfl : (r.signal, r.strength) = e := by simpa using he
    unfold tfOk at h
    simp only [Bool.and_eq_true] at h
    have := h.1.2
    rw [hr] at this
    exact entryOk_bounds r.strength (by simpa [Option.all] using this)

theorem scoreRsiMultiTf_bound (rs : IndicatorResults) (hb : strengthsBounded rs = true) :
    -1 ≤ scoreRsiMultiTf rs ∧ scoreRsiMultiTf rs ≤ 1 := by
  have hav := countAligned_avg_bound (alignEntries rs rsiSel)
    (alignEntries_bounded rs rsiSel hb rsiSel_bounded)
  unfold scoreRsiMultiTf
  dsimp only
  split_ifs <;> constructor <;> linarith [hav.1, hav.2]

theorem emaBase_bound (rs : IndicatorResults) (hb : strengthsBounded rs = true) :
    -1 ≤ emaBase rs ∧ emaBase rs ≤ 1 := by
  have hav := countAligned_avg_bound (alignEntries rs emaSel)
    (alignEntries_bounded rs emaSel hb emaSel_bounded)
  unfold emaBase
  dsimp only
  split_ifs <;> constructor <;> linarith [hav.1, hav.2]

theorem scoreEmaMultiTf_bound (rs : IndicatorResults) (hb : strengthsBounded rs = true) :
    -1 ≤ scoreEmaMultiTf rs ∧ scoreEmaMultiTf rs ≤ 1 := by
  have hB := emaBase_bound rs hb
  unfold scoreEmaMultiTf
  dsimp only
  split_ifs
  · constructor
    · rw [le_min_iff]
      constructor <;> [norm_num; linarith [hB.1]]
    · exact min_le_left _ _
  · constructor
    · exact le_max_left _ _
    · rw [max_le_iff]
      constructor <;> [norm_num; linarith [hB.2]]
  · exact hB

theorem scoreMacdMultiTf_bound (rs : IndicatorResults) (hb : strengthsBounded rs = true) :
    -1 ≤ scoreMacdMultiTf rs ∧ scoreMacdMultiTf rs ≤ 1 := by
  have hav := countAligned_avg_bound (alignEntries rs macdSel)
    (alignEntries_bounded rs macdSel hb macdSel_bounded)
  unfold scoreMacdMultiTf
  dsimp only
  split_ifs <;> constructor <;> linarith [hav.1, hav.2]

theorem tfOk_bollinger (tf : TFIndicators) (h : tfOk tf = true) (b : BollingerEntry)
    (hb : tf.bollinger = some b) : -1 ≤ b.strength ∧ b.strength ≤ 1 := by
  unfold tfOk at h
  simp only [Bool.and_eq_true] at h
  have := h.2
  rw [hb] at this
  exact entryOk_bounds b.strength (by simpa [Option.all] using this)

theorem bollAcc_bound (p : ℚ × ℚ) (otf : Option TFIndicators) (w : ℚ) (hw : 0 ≤ w)
    (hok : otf.all tfOk = true) (hp1 : |p.1| ≤ p.2) :
    |(bollAcc p otf w).1| ≤ (bollAcc p otf w).2 := by
  cases otf with
  | none => exact hp1
  | some tf =>
    cases hbtf : tf.bollinger with
    | none => simpa [bollAcc, hbtf] using hp1
    | some b =>
      have hs := tfOk_bollinger tf (by simpa [Option.all] using hok) b hbtf
      simp only [bollAcc, hbtf]
      rw [abs_le] at hp1 ⊢
      have h1 : -1 * w ≤ b.strength * w := mul_le_mul_of_nonneg_right hs.1 hw
      have h2 : b.strength * w ≤ 1 * w := mul_le_mul_of_nonneg_right hs.2 hw
      constructor <;> [linarith [hp1.1]; linarith [hp1.2]]

theorem bollPair_bound (rs : IndicatorResults) (hb : strengthsBounded rs = true) :
    |(bollPair rs).1| ≤ (bollPair rs).2 := by
  unfold strengthsBounded at hb
  simp only [Bool.and_eq_true] at hb
  obtain ⟨⟨⟨hb1, hb2⟩, hb3⟩, hb4⟩ := hb
  unfold bollPair
  apply bollAcc_bound _ _ _ (by norm_num) hb4
  apply bollAcc_bound _ _ _ (by norm_num) hb3
  apply bollAcc_bound _ _ _ (by norm_num) hb2
  apply bollAcc_bound _ _ _ (by norm_num) hb1
  simp

theorem scoreBollinger_bound (rs : IndicatorResults) (hb : strengthsBounded rs = true) :
    -1 ≤ scoreBollinger rs ∧ scoreBollinger rs ≤ 1 := by
  have hp := bollPair_bound rs hb
  unfold scoreBollinger
  dsimp only
  split_ifs with h0
  · norm_num
  · have hpos : 0 < (bollPair rs).2 :=
      lt_of_le_of_ne (le_trans (abs_nonneg _) hp) (Ne.symm h0)
    rw [abs_le] at hp
    constructor
    · rw [le_div_iff₀ hpos]
      linarith [hp.1]
    · rw [div_le_one hpos]
      exact hp.2

theorem clamp_bound (x : ℚ) : -1 ≤ max (-1) (min 1 x) ∧ max (-1) (min 1 x) ≤ 1 :=
  ⟨le_max_left _ _, max_le (by norm_num) (min_le_left _ _)⟩

theorem scoreLiquidation_bound (rs : IndicatorResults) (funding : Option FundingData)
    (oi : Option OiData) :
    -1 ≤ scoreLiquidation rs funding oi ∧ scoreLiquidation rs funding oi ≤ 1 :=
  clamp_bound _

theorem scoreFundingSentiment_bound (funding : Option FundingData)
    (ls : Option LsRatioData) :
    -1 ≤ scoreFundingSentiment funding ls ∧ scoreFundingSentiment funding ls ≤ 1 :=
  clamp_bound _

theorem scoreVolume_score (rs : IndicatorResults) : (scoreVolume rs).score = 0 := by
  unfold scoreVolume
  dsimp only
  split_ifs <;> rfl

theorem compositeBase_bound (rs : IndicatorResults) (funding : Option FundingData)
    (oi : Option OiData) (ls : Option LsRatioData) (hb : strengthsBounded rs = true) :
    -1 ≤ compositeBase rs funding oi ls ∧ compositeBase rs funding oi ls ≤ 1 := by
  have h1 := scoreRsiMultiTf_bound rs hb
  have h2 := scoreEmaMultiTf_bound rs hb
  have h3 := scoreMacdMultiTf_bound rs hb
  have h4 := scoreVolume_score rs
  have h5 := scoreBollinger_bound rs hb
  have h6 := scoreLiquidation_bound rs funding oi
  have h7 := scoreFundingSentiment_bound funding ls
  unfold compositeBase
  rw [h4]
  constructor <;>
    linarith [h1.1, h1.2, h2.1, h2.2, h3.1, h3.2, h5.1, h5.2, h6.1, h6.2, h7.1, h7.2]

theorem compositeBoosted_bound (rs : IndicatorResults) (funding : Option FundingData)
    (oi : Option OiData) (ls : Option LsRatioData) (hb : strengthsBounded rs = true) :
    -1 ≤ compositeBoosted rs funding oi ls ∧ compositeBoosted rs funding oi ls ≤ 1 := by
  unfold compositeBoosted
  dsimp only
  split_ifs with h h2
  · exact clamp_bound _
  · exact clamp_bound _
  · exact compositeBase_bound rs funding oi ls hb

/-- C8 amended: confidence always lies in `[0, 1]`, and the composite lies in
`[-1, 1]` provided every supplied strength lies in `[-1, 1]` (the fixed
weights sum to 1 and the clamped components are bounded).  The composite
itself is never clamped before being returned, so out-of-range input
strengths do surface out-of-range composites (see the counterexample). -/
theorem c8_bounded_outputs (rs : IndicatorResults) (funding : Option FundingData)
    (oi : Option OiData) (ls : Option LsRatioData) :
    (strengthsBounded rs = true →
      -1 ≤ (calculateFinalScore rs funding oi ls).compositeScore ∧
      (calculateFinalScore rs funding oi ls).compositeScore ≤ 1) ∧
    (0 ≤ (calculateFinalScore rs funding oi ls).confidence ∧
      (calculateFinalScore rs funding oi ls).confidence ≤ 1) := by
  constructor
  · intro hb
    have h := compositeBoosted_bound rs funding oi ls hb
    have hcs : (calculateFinalScore rs funding oi ls).compositeScore =
        pyRound (compositeBoosted rs funding oi ls) 4 := rfl
    rw [hcs]
    exact pyRound_bounds _ 4 h.1 h.2
  · obtain ⟨k, hk5, hk⟩ := agreements_nat
      (0 < scoreRsiMultiTf rs * compositeBoosted rs funding oi ls)
      (0 < scoreEmaMultiTf rs * compositeBoosted rs funding oi ls)
      (0 < scoreMacdMultiTf rs * compositeBoosted rs funding oi ls)
      (0 < scoreBollinger rs * compositeBoosted rs funding oi ls)
      (0 < scoreFundingSentiment funding ls * compositeBoosted rs funding oi ls)
    have hcf : (calculateFinalScore rs funding oi ls).confidence =
        pyRound (((if 0 < scoreRsiMultiTf rs * compositeBoosted rs funding oi ls
            then (1 : ℚ) else 0) +
          (if 0 < scoreEmaMultiTf rs * compositeBoosted rs funding oi ls then (1 : ℚ) else 0) +
          (if 0 < scoreMacdMultiTf rs * compositeBoosted rs funding oi ls then (1 : ℚ) else 0) +
          (if 0 < scoreBollinger rs * compositeBoosted rs funding oi ls then (1 : ℚ) else 0) +
          (if 0 < scoreFundingSentiment funding ls * compositeBoosted rs funding oi ls
            then (1 : ℚ) else 0)) / 5) 2 := rfl
    rw [hcf, hk]
    apply pyRound_bounds01
    · positivity
    · rw [div_le_one (by norm_num)]
      exact_mod_cast hk5

/-- C8 counterexample: an out-of-range input strength (bollinger strength 100)
propagates: the returned composite is 10, far outside `[-1, 1]`, because the
composite is only clamped inside the volume-boost branch. -/
theorem c8_counterexample :
    (calculateFinalScore (bollOnlyInput 100) none none none).compositeScore = 10 ∧
    ¬ ((calculateFinalScore (bollOnlyInput 100) none none none).compositeScore ≤ 1) := by
  constructor <;> with_unfolding_all decide

/-- C8 witness: the amended statement at a concrete bounded input. -/
theorem c8_bounded_outputs_witness :
    strengthsBounded rsiAdxInput = true ∧
    (-1 ≤ (calculateFinalScore rsiAdxInput none none none).compositeScore ∧
      (calculateFinalScore rsiAdxInput none none none).compositeScore ≤ 1) :=
  ⟨by with_unfolding_all decide,
    (c8_bounded_outputs rsiAdxInput none none none).1 (by with_unfolding_all decide)⟩

/-! ## Claim C9: the 50-candle gate of analyze_ohlc_data -/

/-- C9: `analyze_ohlc_data` returns the empty result for every list of fewer
than 50 candles and a populated result for every list of at least 50 candles,
even though individual indicators need far less history: RSI is defined from
15 prices, Bollinger from 20, momentum from 14, and DeMark returns a record
for every series. -/
theorem c9_analyze_guard :
    (∀ (sqrtq : ℚ → ℚ) (ohlc : List Candle), ohlc.length < 50 →
      analyzeOhlcData sqrtq ohlc = none) ∧
    (∀ (sqrtq : ℚ → ℚ) (ohlc : List Candle), 50 ≤ ohlc.length →
      (analyzeOhlcData sqrtq ohlc).isSome = true) ∧
    (calculateRsi (List.replicate 15 100) 14).isSome = true ∧
    (∀ sqrtq : ℚ → ℚ,
      (calculateBollingerBands sqrtq (List.replicate 20 100) 20 2).isSome = true) ∧
    (∀ closes : List ℚ, (calculateDemark closes).isSome = true) ∧
    (calculateMomentum (List.replicate 14 100)).bullish.isSome = true := by
  refine ⟨?_, ?_, ?_, ?_, ?_, ?_⟩
  · intro sqrtq ohlc hlen
    unfold analyzeOhlcData
    rw [if_pos hlen]
  · intro sqrtq ohlc hlen
    unfold analyzeOhlcData
    rw [if_neg (by omega)]
    rfl
  · with_unfolding_all decide
  · intro sqrtq
    unfold calculateBollingerBands
    rw [if_neg (by simp)]
    rfl
  · intro closes
    unfold calculateDemark
    dsimp only
    split_ifs <;> rfl
  · with_unfolding_all decide

/-- C9 witness: a 30-candle list is rejected outright. -/
theorem c9_analyze_guard_witness :
    analyzeOhlcData id (List.replicate 30 { ts := 0, opn := 1, high := 1, low := 1, close := 1 })
      = none :=
  c9_analyze_guard.1 id _ (by simp)

/-! ## Claim C10: DeMark totality and flag invariants -/

theorem demark_foldl_le (l : List (ℚ × ℚ)) (st : ℕ × ℕ) (h1 : st.1 ≤ 9) (h2 : st.2 ≤ 9) :
    (l.foldl demarkStep st).1 ≤ 9 ∧ (l.foldl demarkStep st).2 ≤ 9 := by
  induction l generalizing st with
  | nil => exact ⟨h1, h2⟩
  | cons p t ih =>
    rw [List.foldl_cons]
    apply ih <;>
    · unfold demarkStep
      split_ifs <;> (simp only []; omega)

/-- C10: `calculate_demark` is total — it returns a record on every input,
including series shorter than 5 bars — and that record always has a count in
`[0, 9]`, an `active` flag holding exactly when the count is positive, and a
`completed` flag holding exactly when the count equals 9. -/
theorem c10_demark_total_invariants (closes : List ℚ) :
    ∃ r : DemarkResult, calculateDemark closes = some r ∧ r.count ≤ 9 ∧
      (r.active = true ↔ 0 < r.count) ∧ (r.completed = true ↔ r.count = 9) := by
  unfold calculateDemark
  dsimp only
  split_ifs with h1 h2 h3
  · exact ⟨_, rfl, by norm_num⟩
  · have hle := demark_foldl_le ((closes.drop 4).zip closes) (0, 0) (by norm_num) (by norm_num)
    refine ⟨_, rfl, ?_, ?_, ?_⟩
    · exact hle.1
    · simpa using h2
    · simp only [decide_eq_true_eq]
      omega
  · have hle := demark_foldl_le ((closes.drop 4).zip closes) (0, 0) (by norm_num) (by norm_num)
    refine ⟨_, rfl, ?_, ?_, ?_⟩
    · exact hle.2
    · simpa using h3
    · simp only [decide_eq_true_eq]
      omega
  · exact ⟨_, rfl, by norm_num⟩

end Moonlander
